import Mathlib

/-!
Shallow embedding of `iss_tracker.py`, a small Flask service that fetches
an ISS OEM XML ephemeris, normalizes it into state-vector records, and
serves lookup / slicing / speed / geodetic-conversion queries.

Python dictionaries/lists/strings parsed from XML are modelled by `PyVal`;
Python exceptions are modelled by `PyErr` together with `Except` result
types.  Machine floats are modelled by `ℚ` (exact decimal arithmetic);
only the speed computations, which take a square root, live in `ℝ`.
-/

namespace IssTracker

/-- Python exception kinds relevant to this program.  `unboundLocalError`
models referencing a local variable before assignment. -/
inductive PyErr where
  | keyError
  | typeError
  | valueError
  | unboundLocalError
deriving DecidableEq, Repr

/-- Python values as produced by `xmltodict.parse`: nested dictionaries
with string keys, lists, strings, numbers, and `None`. -/
inductive PyVal where
  | pynone : PyVal
  | str : String → PyVal
  | num : ℚ → PyVal
  | list : List PyVal → PyVal
  | dict : List (String × PyVal) → PyVal

/-- Python subscripting `v[k]` with a string key: a dictionary either
yields the value bound to `k` or raises `KeyError`; subscripting any
non-dictionary value (including `None`, strings and lists) with a string
key raises `TypeError`. -/
def PyVal.subscript : PyVal → String → Except PyErr PyVal
  | .dict kvs, k =>
    match kvs.find? (fun kv => kv.1 == k) with
    | some kv => .ok kv.2
    | none => .error .keyError
  | _, _ => .error .typeError

/-- Chained subscripting `v[k₁][k₂]…`; the first exception propagates. -/
def subscriptPath (v : PyVal) : List String → Except PyErr PyVal
  | [] => .ok v
  | k :: ks =>
    match v.subscript k with
    | .ok v' => subscriptPath v' ks
    | .error e => .error e

/-- Embedding of `format_header`: follow `['ndm']['oem']['header']`,
catching only `KeyError` (which returns the empty dict `{}`); any other
exception propagates to the caller. -/
def format_header (data_dict : PyVal) : Except PyErr PyVal :=
  match subscriptPath data_dict ["ndm", "oem", "header"] with
  | .ok v => .ok v
  | .error .keyError => .ok (.dict [])
  | .error e => .error e

/-- Embedding of `format_comment`: follow
`['ndm']['oem']['body']['segment']['data']['COMMENT']`, catching only
`KeyError` (which returns the empty list `[]`). -/
def format_comment (data_dict : PyVal) : Except PyErr PyVal :=
  match subscriptPath data_dict ["ndm", "oem", "body", "segment", "data", "COMMENT"] with
  | .ok v => .ok v
  | .error .keyError => .ok (.list [])
  | .error e => .error e

/-- Embedding of `format_metadata`: follow
`['ndm']['oem']['body']['segment']['metadata']`, catching only `KeyError`
(which returns the empty dict `{}`). -/
def format_metadata (data_dict : PyVal) : Except PyErr PyVal :=
  match subscriptPath data_dict ["ndm", "oem", "body", "segment", "metadata"] with
  | .ok v => .ok v
  | .error .keyError => .ok (.dict [])
  | .error e => .error e

/-! ### Numeric field parsing (`float(...)` on the XML text content)

Models CPython `float(str)` on plain decimal literals: optional sign,
decimal digits with an optional fractional part, and an optional
case-insensitive exponent.  (`inf`/`nan` spellings, surrounding
whitespace and digit-group underscores never occur in this feed and are
not modelled.)  A failed parse corresponds to `ValueError`. -/

/-- Value of a digit string (most significant first); meaningful only
when every character is a digit. -/
def digitsToNat (cs : List Char) : Nat :=
  cs.foldl (fun a c => 10 * a + (c.toNat - 48)) 0

/-- Parse an unsigned decimal mantissa `digits[.digits]` to an exact
rational; at least one digit must be present overall. -/
def parseMantissa (cs : List Char) : Option ℚ :=
  match cs.splitOn '.' with
  | [ip] =>
    if ip ≠ [] ∧ ip.all Char.isDigit then some (digitsToNat ip) else none
  | [ip, fp] =>
    if (ip ≠ [] ∨ fp ≠ []) ∧ (ip ++ fp).all Char.isDigit then
      some ((digitsToNat ip : ℚ) + (digitsToNat fp : ℚ) / (10 : ℚ) ^ fp.length)
    else none
  | _ => none

/-- Parse a decimal literal with optional sign and exponent, as accepted
by Python `float`. -/
def parseFloatString (s : String) : Option ℚ :=
  let cs := s.toList.map Char.toLower
  let (neg, cs) : Bool × List Char :=
    match cs with
    | '+' :: rest => (false, rest)
    | '-' :: rest => (true, rest)
    | _ => (false, cs)
  let signed : ℚ → ℚ := fun q => if neg then -q else q
  match cs.splitOn 'e' with
  | [m] => (parseMantissa m).map signed
  | [m, ex] =>
    let (eneg, ed) : Bool × List Char :=
      match ex with
      | '+' :: rest => (false, rest)
      | '-' :: rest => (true, rest)
      | _ => (false, ex)
    if ed ≠ [] ∧ ed.all Char.isDigit then
      (parseMantissa m).map (fun q =>
        signed (q * (10 : ℚ) ^ (if eneg then -(digitsToNat ed : Int) else (digitsToNat ed : Int))))
    else none
  | _ => none

/-- Python `float(x)`: a string is parsed as a decimal literal, a number
is returned unchanged; `float` of a dict/list/`None` raises `TypeError`
(collapsed to `none` because every exception in the normalizer loop body
is caught and skips the entry). -/
def pyFloat : PyVal → Option ℚ
  | .str s => parseFloatString s
  | .num q => some q
  | _ => none

/-! ### EPOCH timestamp parsing and re-rendering

Models `datetime.strptime(epoch, "%Y-%jT%H:%M:%S.%fZ")` followed by
`datetime.strftime(ts, '%Y-%m-%d %H:%M:%S.%f')`.  Per the CPython
`_strptime` patterns: `%Y` is exactly four digits, `%j` is one to three
digits with value 1–366, `%H`/`%M`/`%S` are one or two digits bounded by
23/59/59 (the `datetime` constructor rejects leap seconds), `%f` is one
to six digits extended with trailing zeros to microseconds, and the
whole input string must be consumed.  A day-of-year of 366 in a non-leap
year is not validated by CPython and rolls over to January 1 of the
following year. -/

/-- Proleptic Gregorian leap-year rule used by Python `datetime`. -/
def isLeapYear (y : Nat) : Bool :=
  y % 4 == 0 && (y % 100 != 0 || y % 400 == 0)

/-- Month lengths, January first. -/
def monthLengths (leap : Bool) : List Nat :=
  [31, if leap then 29 else 28, 31, 30, 31, 30, 31, 31, 30, 31, 30, 31]

/-- Convert a 1-based day-of-year (assumed within the year) to a
1-based (month, day) pair by walking the month lengths. -/
def doyToMonthDayAux : Nat → Nat → List Nat → Nat × Nat
  | m, d, [] => (m, d)
  | m, d, len :: rest => if d ≤ len then (m, d) else doyToMonthDayAux (m + 1) (d - len) rest

/-- Day-of-year to (month, day). -/
def doyToMonthDay (leap : Bool) (doy : Nat) : Nat × Nat :=
  doyToMonthDayAux 1 doy (monthLengths leap)

/-- Zero-pad a value below 100 to two digits (strftime `%m %d %H %M %S`). -/
def pad2 (n : Nat) : String :=
  if n < 10 then "0" ++ toString n else toString n

/-- Zero-pad microseconds to six digits (strftime `%f`). -/
def pad6 (n : Nat) : String :=
  let s := toString n
  String.mk (List.replicate (6 - s.length) '0') ++ s

/-- Render `%Y-%m-%d %H:%M:%S.%f` as glibc strftime does (the year is
printed unpadded; every feed year has four digits). -/
def renderTimestamp (y m d hh mm ss micro : Nat) : String :=
  toString y ++ "-" ++ pad2 m ++ "-" ++ pad2 d ++ " " ++
    pad2 hh ++ ":" ++ pad2 mm ++ ":" ++ pad2 ss ++ "." ++ pad6 micro

/-- Consume one expected literal character. -/
def expectChar (c : Char) : List Char → Option (List Char)
  | x :: rest => if x = c then some rest else none
  | [] => none

/-- Parse `"%Y-%jT%H:%M:%S.%fZ"` and re-render as
`'%Y-%m-%d %H:%M:%S.%f'`; `none` models `ValueError`. -/
def parseEpochTimestamp (s : String) : Option String := do
  let cs := s.toList
  let (yd, cs) := cs.span Char.isDigit
  if yd.length ≠ 4 then none else
  let y := digitsToNat yd
  if y = 0 then none else
  let cs ← expectChar '-' cs
  let (jd, cs) := cs.span Char.isDigit
  if jd.length = 0 ∨ 3 < jd.length then none else
  let j := digitsToNat jd
  if j = 0 ∨ 366 < j then none else
  let cs ← expectChar 'T' cs
  let (hd, cs) := cs.span Char.isDigit
  if hd.length = 0 ∨ 2 < hd.length then none else
  let hh := digitsToNat hd
  if 23 < hh then none else
  let cs ← expectChar ':' cs
  let (md, cs) := cs.span Char.isDigit
  if md.length = 0 ∨ 2 < md.length then none else
  let mm := digitsToNat md
  if 59 < mm then none else
  let cs ← expectChar ':' cs
  let (sd, cs) := cs.span Char.isDigit
  if sd.length = 0 ∨ 2 < sd.length then none else
  let ss := digitsToNat sd
  if 59 < ss then none else
  let cs ← expectChar '.' cs
  let (fd, cs) := cs.span Char.isDigit
  if fd.length = 0 ∨ 6 < fd.length then none else
  let micro := digitsToNat fd * 10 ^ (6 - fd.length)
  let cs ← expectChar 'Z' cs
  if cs ≠ [] then none else
  let leap := isLeapYear y
  let yearLen := if leap then 366 else 365
  if j ≤ yearLen then
    let (m, d) := doyToMonthDay leap j
    some (renderTimestamp y m d hh mm ss micro)
  else
    -- day 366 of a non-leap year rolls over to January 1 of year y+1
    if y + 1 ≤ 9999 then some (renderTimestamp (y + 1) 1 1 hh mm ss micro) else none

/-! ### The normalizer `format_data` -/

/-- The canonical normalized state vector: re-rendered timestamp plus six
Cartesian position/velocity components. -/
structure StateVectorRecord where
  timestamp : String
  x : ℚ
  y : ℚ
  z : ℚ
  dx : ℚ
  dy : ℚ
  dz : ℚ
deriving DecidableEq, Repr

/-- Read `stateVector['EPOCH']` and convert it with `strptime`/`strftime`;
`strptime` of a non-string raises `TypeError`, which (like `KeyError` and
`ValueError`) skips the entry. -/
def entryTimestamp (sv : PyVal) : Option String :=
  match sv.subscript "EPOCH" with
  | .ok (.str s) => parseEpochTimestamp s
  | _ => none

/-- Read `float(stateVector[k]['#text'])` for a numeric field `k`. -/
def entryField (sv : PyVal) (k : String) : Option ℚ :=
  match sv.subscript k with
  | .ok v =>
    match v.subscript "#text" with
    | .ok t => pyFloat t
    | .error _ => none
  | .error _ => none

/-- One iteration of the `format_data` loop body: all seven reads and
parses must succeed, in source order, or the entry yields no record
(`KeyError`, `ValueError` and `TypeError` are all caught and `continue`). -/
def parseEntry (sv : PyVal) : Option StateVectorRecord := do
  let ts ← entryTimestamp sv
  let x ← entryField sv "X"
  let y ← entryField sv "Y"
  let z ← entryField sv "Z"
  let dx ← entryField sv "X_DOT"
  let dy ← entryField sv "Y_DOT"
  let dz ← entryField sv "Z_DOT"
  pure ⟨ts, x, y, z, dx, dy, dz⟩

/-- The `for stateVector in data_list` loop of `format_data`. -/
def formatEntries (entries : List PyVal) : List StateVectorRecord :=
  entries.filterMap parseEntry

/-- Python iteration: a list yields its elements, a dict its keys, a
string its characters (as one-character strings); iterating a number or
`None` raises `TypeError`. -/
def pyIter : PyVal → Except PyErr (List PyVal)
  | .list l => .ok l
  | .dict kvs => .ok (kvs.map (fun kv => PyVal.str kv.1))
  | .str s => .ok (s.toList.map (fun c => PyVal.str (String.mk [c])))
  | _ => .error .typeError

/-- Embedding of `format_data`: follow the `stateVector` path (a missing
key returns the empty list), then run the normalizer loop. -/
def format_data (data_dict : PyVal) : Except PyErr (List StateVectorRecord) :=
  match subscriptPath data_dict ["ndm", "oem", "body", "segment", "data", "stateVector"] with
  | .error .keyError => .ok []
  | .error e => .error e
  | .ok v =>
    match pyIter v with
    | .error e => .error e
    | .ok entries => .ok (formatEntries entries)

/-! ### The fetcher `fetch_data` -/

/-- Outcome of `xmltodict.parse` on the response body. -/
inductive XmlParseResult where
  | parsed (v : PyVal)
  | malformed

/-- Environment of one `fetch_data` call: either `requests.get` raises a
transport-level `RequestException`, or it returns a response with a
status code and a body. -/
inductive FetchEnv where
  | transportError
  | response (status : Nat) (body : XmlParseResult)

/-- The `except requests.exceptions.RequestException` handler: its log
message interpolates the local variable `response`, so if `requests.get`
itself raised, `response` was never assigned and the handler raises
`UnboundLocalError`; otherwise it logs and falls off the end of the
function, returning `None`. -/
def fetchHandler (responseBound : Bool) : Except PyErr (Option PyVal) :=
  if responseBound then .ok none else .error .unboundLocalError

/-- Embedding of `fetch_data`. -/
def fetch_data (env : FetchEnv) : Except PyErr (Option PyVal) :=
  match env with
  | .transportError => fetchHandler false
  | .response status body =>
    if status ≠ 200 then
      -- `raise requests.exceptions.RequestException`, caught below with
      -- `response` bound
      fetchHandler true
    else
      match body with
      | .parsed v => .ok (some v)
      | .malformed => .ok none  -- ExpatError handler logs and returns None

/-! ### Query engine: speeds -/

/-- Magnitude `sqrt(dx² + dy² + dz²)` of a record's velocity vector. -/
noncomputable def speed (r : StateVectorRecord) : ℝ :=
  Real.sqrt ((r.dx : ℝ) ^ 2 + (r.dy : ℝ) ^ 2 + (r.dz : ℝ) ^ 2)

/-- Embedding of `calculate_average_speed`: accumulate the speeds in a
loop, then divide by the record count; the `ZeroDivisionError` on an
empty list is caught and the function returns `None`. -/
noncomputable def calculate_average_speed (formatted_data : List StateVectorRecord) :
    Option ℝ :=
  let total := formatted_data.foldl (fun acc r => acc + speed r) 0
  if formatted_data.length = 0 then none else some (total / formatted_data.length)

/-! ### Route `/epochs`: Python list slicing -/

/-- Normalize one slice bound the way CPython does for `list[a:b]`: a
negative bound counts from the end (clamped at 0), a non-negative bound
is clamped at the length. -/
def pySliceBound (len : Nat) (i : Int) : Nat :=
  if i < 0 then ((len : Int) + i).toNat else min i.toNat len

/-- Python `l[start:stop]` (step 1). -/
def pySlice {α : Type} (l : List α) (start stop : Int) : List α :=
  (l.take (pySliceBound l.length stop)).drop (pySliceBound l.length start)

/-- Embedding of the `/epochs` route body after normalization: `limit`
defaults to `None` and `offset` to `0`; with a limit the route returns
`formatted_data[offset:offset+limit]`, otherwise `formatted_data[offset:]`. -/
def get_epochs (formatted_data : List StateVectorRecord)
    (limit : Option Int) (offset : Int) : List StateVectorRecord :=
  match limit with
  | some m => pySlice formatted_data offset (offset + m)
  | none => pySlice formatted_data offset formatted_data.length

/-! ### Route `/epochs/<epoch>`: path decoding and lookup -/

/-- Python `str.replace` for a nonempty pattern `o :: os`: scan left to
right, replacing each non-overlapping occurrence. -/
def pyReplaceAux (o : Char) (os new : List Char) : List Char → List Char
  | [] => []
  | c :: rest =>
    if (o :: os).isPrefixOf (c :: rest) then
      new ++ pyReplaceAux o os new (rest.drop os.length)
    else
      c :: pyReplaceAux o os new rest
termination_by l => l.length
decreasing_by
  · simp only [List.length_cons, List.length_drop]
    omega
  · simp only [List.length_cons]
    omega

/-- Python `s.replace(old, new)` (the program only calls it with a
nonempty `old`; an empty pattern is returned unchanged here). -/
def pyReplace (s old new : String) : String :=
  match old.toList with
  | [] => s
  | o :: os => String.mk (pyReplaceAux o os new.toList s.toList)

/-- The route's decoding of a path segment:
`epoch.replace("__", " ").replace("_", ":")`. -/
def decodeEpochPath (s : String) : String :=
  pyReplace (pyReplace s "__" " ") "_" ":"

/-- The inverse encoding used by the clients and tests:
`timestamp.replace(" ", "__").replace(":", "_")`. -/
def encodeEpochPath (s : String) : String :=
  pyReplace (pyReplace s " " "__") ":" "_"

/-- A Flask response of the single-epoch routes: either a record body
(HTTP 200) or an error body with an explicit status code. -/
inductive EpochResponse where
  | record (r : StateVectorRecord)
  | notFound (body : List (String × String)) (status : Nat)
deriving DecidableEq, Repr

/-- Embedding of the `/epochs/<epoch>` route body after normalization:
decode the path segment, scan the records in order and return the first
whose timestamp equals the decoded string, else 404. -/
def get_epoch (formatted_data : List StateVectorRecord) (epoch : String) : EpochResponse :=
  match formatted_data.find? (fun r => r.timestamp == decodeEpochPath epoch) with
  | some r => .record r
  | none => .notFound [("error", "Epoch not found")] 404

/-! ### Geodetic conversion `cartesian_to_geo`

The astropy frame transform (GCRS → ITRS → `EarthLocation`) and the
Nominatim reverse geocoder are opaque external dependencies; one call's
worth of their behavior is packaged in a `GeoEnv`. -/

/-- The `EarthLocation` produced by the transform: geodetic latitude and
longitude in degrees (`ears.lat.deg`, `ears.lon.deg`) and height in km
(`ears.height.value`). -/
structure EarthLoc where
  lat : ℚ
  lon : ℚ
  height : ℚ
deriving DecidableEq, Repr

/-- How the transform block's `try` can fail: `KeyError`/`TypeError`
(both caught, returning `None`) or any other exception (the bare
`except:` branch). -/
inductive TransformErr where
  | keyError
  | typeError
  | other
deriving DecidableEq, Repr

/-- Map a subscript exception into the transform block's error kinds. -/
def PyErr.toTransformErr : PyErr → TransformErr
  | .keyError => .keyError
  | .typeError => .typeError
  | _ => .other

/-- External behavior for one `cartesian_to_geo` call: the outcome of
the astropy transform pipeline, and `geocoder.reverse` as a function of
(lat, lon) returning an address or `None`. -/
structure GeoEnv where
  transform : Except TransformErr EarthLoc
  geocode : ℚ → ℚ → Option String

/-- The second `try` block: read `epoch['x']`, `epoch['y']`, `epoch['z']`
(a missing key raises `KeyError`), then run the opaque astropy pipeline. -/
def geoTransformBlock (env : GeoEnv) (epoch : PyVal) : Except TransformErr EarthLoc :=
  match epoch.subscript "x" with
  | .error e => .error e.toTransformErr
  | .ok _ =>
    match epoch.subscript "y" with
    | .error e => .error e.toTransformErr
    | .ok _ =>
      match epoch.subscript "z" with
      | .error e => .error e.toTransformErr
      | .ok _ => env.transform

/-- Parse `'%Y-%m-%d %H:%M:%S.%f'` as `datetime.strptime` does (the
resulting instant is only passed to the opaque transform, so validity is
all that matters): four-digit year ≥ 1, month 1–12, day valid for the
month, bounded time fields, one to six fractional digits. -/
def parseGeoTimestamp (s : String) : Option Unit := do
  let cs := s.toList
  let (yd, cs) := cs.span Char.isDigit
  if yd.length ≠ 4 then none else
  let y := digitsToNat yd
  if y = 0 then none else
  let cs ← expectChar '-' cs
  let (mo, cs) := cs.span Char.isDigit
  if mo.length = 0 ∨ 2 < mo.length then none else
  let m := digitsToNat mo
  if m = 0 ∨ 12 < m then none else
  let cs ← expectChar '-' cs
  let (dd, cs) := cs.span Char.isDigit
  if dd.length = 0 ∨ 2 < dd.length then none else
  let d := digitsToNat dd
  if d = 0 ∨ ((monthLengths (isLeapYear y)).getD (m - 1) 0) < d then none else
  let cs ← expectChar ' ' cs
  let (hd, cs) := cs.span Char.isDigit
  if hd.length = 0 ∨ 2 < hd.length then none else
  if 23 < digitsToNat hd then none else
  let cs ← expectChar ':' cs
  let (md, cs) := cs.span Char.isDigit
  if md.length = 0 ∨ 2 < md.length then none else
  if 59 < digitsToNat md then none else
  let cs ← expectChar ':' cs
  let (sd, cs) := cs.span Char.isDigit
  if sd.length = 0 ∨ 2 < sd.length then none else
  if 59 < digitsToNat sd then none else
  let cs ← expectChar '.' cs
  let (fd, cs) := cs.span Char.isDigit
  if fd.length = 0 ∨ 6 < fd.length then none else
  if cs ≠ [] then none else
  some ()

/-- The hard-coded longitude correction:
`lon = ears.lon.deg + 90 - 15`, then `if lon > 180: lon -= 180*2`. -/
def lonCorrect (lon : ℚ) : ℚ :=
  let l := lon + 90 - 15
  if l > 180 then l - 180 * 2 else l

/-- Embedding of `cartesian_to_geo`.  The timestamp `try` catches only
`KeyError`/`TypeError` (returning `None`); a string that fails to parse
raises an uncaught `ValueError`.  The transform `try` catches
`KeyError`/`TypeError` (returning `None`), while its bare `except:`
branch only logs, so control falls through to `ears.lon.deg` with `ears`
unbound, raising `UnboundLocalError`.  On success the function returns a
one-element list holding a dict with keys `lat`, `lon`, `alt`, `geoloc`,
where a `None` geocoder result becomes `"Over Ocean or Unknown"`. -/
def cartesian_to_geo (env : GeoEnv) (epoch : PyVal) : Except PyErr (Option PyVal) :=
  match epoch.subscript "timestamp" with
  | .error _ => .ok none
  | .ok tv =>
    match tv with
    | .str s =>
      match parseGeoTimestamp s with
      | none => .error .valueError
      | some _ =>
        match geoTransformBlock env epoch with
        | .error .keyError => .ok none
        | .error .typeError => .ok none
        | .error .other => .error .unboundLocalError
        | .ok ears =>
          let lon := lonCorrect ears.lon
          let place :=
            match env.geocode ears.lat lon with
            | some addr => addr
            | none => "Over Ocean or Unknown"
          .ok (some (.list [.dict
            [("lat", .num ears.lat), ("lon", .num lon),
             ("alt", .num ears.height), ("geoloc", .str place)]]))
    | _ => .ok none

/-- Extract a numeric field from a successful `cartesian_to_geo`
response (a one-element list of one dict). -/
def geoRespField (resp : Except PyErr (Option PyVal)) (k : String) : Option ℚ :=
  match resp with
  | .ok (some (.list [.dict kvs])) =>
    match kvs.find? (fun kv => kv.1 == k) with
    | some (_, .num q) => some q
    | _ => none
  | _ => none

/-! ### Test fixtures (from `test/test_iss_tracker.py`) -/

/-- One raw fixture state vector. -/
def rawEntry (epoch x y z dx dy dz : String) : PyVal :=
  .dict [("EPOCH", .str epoch),
    ("X", .dict [("#text", .str x)]),
    ("Y", .dict [("#text", .str y)]),
    ("Z", .dict [("#text", .str z)]),
    ("X_DOT", .dict [("#text", .str dx)]),
    ("Y_DOT", .dict [("#text", .str dy)]),
    ("Z_DOT", .dict [("#text", .str dz)])]

/-- The four raw state vectors of the test fixture. -/
def fixtureEntries : List PyVal :=
  [rawEntry "1000-001T00:00:00.000Z" "1" "-2" "3" "4" "-5" "6",
   rawEntry "1000-002T00:00:00.000Z" "-7" "8" "-9" "10" "-11" "12",
   rawEntry "1000-003T00:00:00.000Z" "13" "-14" "15" "16" "-17" "18",
   rawEntry "1000-004T00:00:00.000Z" "-19" "20" "-21" "22" "-23" "24"]

/-- The expected normalized records of the test fixture. -/
def fixtureRecords : List StateVectorRecord :=
  [⟨"1000-01-01 00:00:00.000000", 1, -2, 3, 4, -5, 6⟩,
   ⟨"1000-01-02 00:00:00.000000", -7, 8, -9, 10, -11, 12⟩,
   ⟨"1000-01-03 00:00:00.000000", 13, -14, 15, 16, -17, 18⟩,
   ⟨"1000-01-04 00:00:00.000000", -19, 20, -21, 22, -23, 24⟩]

/-! ### Spec-side definitions for the normalizer claim -/

/-- A raw entry is well-formed when the EPOCH timestamp and all six
numeric fields parse successfully. -/
def entryWellFormed (sv : PyVal) : Bool :=
  (entryTimestamp sv).isSome &&
    ((entryField sv "X").isSome && (entryField sv "Y").isSome &&
     (entryField sv "Z").isSome && (entryField sv "X_DOT").isSome &&
     (entryField sv "Y_DOT").isSome && (entryField sv "Z_DOT").isSome)

/-- The record a well-formed entry denotes (total, with irrelevant
defaults on ill-formed entries). -/
def mkRecord (sv : PyVal) : StateVectorRecord :=
  ⟨(entryTimestamp sv).getD "",
   (entryField sv "X").getD 0, (entryField sv "Y").getD 0,
   (entryField sv "Z").getD 0, (entryField sv "X_DOT").getD 0,
   (entryField sv "Y_DOT").getD 0, (entryField sv "Z_DOT").getD 0⟩

/-- Wrap a list of raw state vectors in the fixed key path that
`format_data` expects. -/
def stateVectorDoc (entries : List PyVal) : PyVal :=
  .dict [("ndm", .dict [("oem", .dict [("body", .dict [("segment", .dict
    [("data", .dict [("stateVector", .list entries)])])])])])]

/-! ### Spec-side definitions for the path-encoding round trip -/

/-- Character image of `replace(" ", "__")` followed by
`replace(":", "_")` on an underscore-free string. -/
def emChar (c : Char) : List Char :=
  if c = ' ' then ['_', '_'] else if c = ':' then ['_'] else [c]

/-- Character image after the first decoding pass has restored spaces
but colons are still underscores. -/
def mdChar (c : Char) : List Char :=
  if c = ':' then ['_'] else [c]

/-- Head of a list is safe to follow a colon: not a colon and not a
space (so encoding cannot produce a spurious `__`). -/
def headOkAfterColon : List Char → Bool
  | [] => true
  | c :: _ => decide (c ≠ ':') && decide (c ≠ ' ')

/-- No colon is immediately followed by a colon or a space. -/
def colonOk : List Char → Bool
  | [] => true
  | c :: rest => (if c = ':' then headOkAfterColon rest else true) && colonOk rest

/-- Match a string against a template in which `D` stands for a decimal
digit and every other character is a literal; the whole string must be
consumed. -/
def matchesFormat : List Char → List Char → Bool
  | [], [] => true
  | f :: fs, c :: cs => (if f = 'D' then c.isDigit else c = f) && matchesFormat fs cs
  | _, _ => false

/-- In a template, every colon is followed by a digit slot. -/
def fmtHeadDigit : List Char → Bool
  | [] => true
  | f :: _ => decide (f = 'D')

/-- Template-level counterpart of `colonOk`. -/
def fmtColonOk : List Char → Bool
  | [] => true
  | f :: fs => (if f = ':' then fmtHeadDigit fs else true) && fmtColonOk fs

/-- The canonical timestamp shape `YYYY-MM-DD hh:mm:ss.ffffff`. -/
def canonicalTemplate : List Char :=
  "DDDD-DD-DD DD:DD:DD.DDDDDD".toList

/-- A string in canonical `YYYY-MM-DD hh:mm:ss.ffffff` form. -/
def isCanonicalTimestamp (s : String) : Bool :=
  matchesFormat canonicalTemplate s.toList

/-! ### Concrete inputs for witnesses and counterexamples -/

/-- A geo environment whose transform succeeds with latitude 10°,
longitude 20°, height 400 km, and whose geocoder finds nothing. -/
def geoEnvNoResult : GeoEnv :=
  ⟨.ok ⟨10, 20, 400⟩, fun _ _ => none⟩

/-- A geo environment whose transform raises an exception of a kind not
matching the two caught classes. -/
def geoEnvOtherFailure : GeoEnv :=
  ⟨.error .other, fun _ _ => none⟩

/-- A concrete epoch record dict (shape of the `cartesian_to_geo` unit
test fixture). -/
def geoEpochFix : PyVal :=
  .dict [("timestamp", .str "2024-03-17 12:00:00.000000"),
    ("x", .num 5000), ("y", .num 2000), ("z", .num 3000)]

/-- Extract a string field from a successful `cartesian_to_geo`
response. -/
def geoRespStr (resp : Except PyErr (Option PyVal)) (k : String) : Option String :=
  match resp with
  | .ok (some (.list [.dict kvs])) =>
    match kvs.find? (fun kv => kv.1 == k) with
    | some (_, .str a) => some a
    | _ => none
  | _ => none

/-! ## Theorems -/

/-- A single subscript can only raise `KeyError` or `TypeError`. -/
theorem PyVal.subscript_error {v : PyVal} {k : String} {e : PyErr}
    (h : v.subscript k = .error e) : e = .keyError ∨ e = .typeError := by
  cases v <;> simp [PyVal.subscript] at h <;> try exact Or.inr h.symm
  case dict kvs =>
    rcases hf : kvs.find? (fun kv => kv.1 == k) with _ | kv <;> simp [hf] at h
    exact Or.inl h.symm

/-- A subscript chain can only raise `KeyError` or `TypeError`. -/
theorem subscriptPath_error {ks : List String} {v : PyVal} {e : PyErr}
    (h : subscriptPath v ks = .error e) : e = .keyError ∨ e = .typeError := by
  induction ks generalizing v with
  | nil => simp [subscriptPath] at h
  | cons k ks ih =>
    rw [subscriptPath] at h
    cases hs : v.subscript k with
    | ok v' =>
      rw [hs] at h
      exact ih h
    | error e' =>
      rw [hs] at h
      cases h
      exact PyVal.subscript_error hs

/-- C2 (amended): each extractor returns its documented empty value when
its fixed key path is missing from a mapping document (a `KeyError`
along the path), and the only exception an extractor can propagate is a
`TypeError` — which does escape, e.g. for the `None` document a failed
fetch produces. -/
theorem extractors_empty_on_missing_path (d : PyVal) :
    (subscriptPath d ["ndm", "oem", "header"] = .error .keyError →
      format_header d = .ok (.dict [])) ∧
    (subscriptPath d ["ndm", "oem", "body", "segment", "data", "COMMENT"] = .error .keyError →
      format_comment d = .ok (.list [])) ∧
    (subscriptPath d ["ndm", "oem", "body", "segment", "metadata"] = .error .keyError →
      format_metadata d = .ok (.dict [])) ∧
    (subscriptPath d ["ndm", "oem", "body", "segment", "data", "stateVector"] = .error .keyError →
      format_data d = .ok []) ∧
    (∀ e, format_header d = .error e → e = .typeError) ∧
    (∀ e, format_comment d = .error e → e = .typeError) ∧
    (∀ e, format_metadata d = .error e → e = .typeError) ∧
    (∀ e, format_data d = .error e → e = .typeError) := by
  refine ⟨?_, ?_, ?_, ?_, ?_, ?_, ?_, ?_⟩
  · intro h
    rw [format_header, h]
  · intro h
    rw [format_comment, h]
  · intro h
    rw [format_metadata, h]
  · intro h
    rw [format_data, h]
  · intro e h
    rw [format_header] at h
    cases hp : subscriptPath d ["ndm", "oem", "header"] with
    | ok v =>
      rw [hp] at h
      cases h
    | error e' =>
      rw [hp] at h
      rcases subscriptPath_error hp with rfl | rfl
      · cases h
      · cases h
        rfl
  · intro e h
    rw [format_comment] at h
    cases hp : subscriptPath d ["ndm", "oem", "body", "segment", "data", "COMMENT"] with
    | ok v =>
      rw [hp] at h
      cases h
    | error e' =>
      rw [hp] at h
      rcases subscriptPath_error hp with rfl | rfl
      · cases h
      · cases h
        rfl
  · intro e h
    rw [format_metadata] at h
    cases hp : subscriptPath d ["ndm", "oem", "body", "segment", "metadata"] with
    | ok v =>
      rw [hp] at h
      cases h
    | error e' =>
      rw [hp] at h
      rcases subscriptPath_error hp with rfl | rfl
      · cases h
      · cases h
        rfl
  · intro e h
    rw [format_data] at h
    cases hp : subscriptPath d ["ndm", "oem", "body", "segment", "data", "stateVector"] with
    | ok v =>
      rw [hp] at h
      cases v <;> simp [pyIter] at h
      all_goals exact h.symm
    | error e' =>
      rw [hp] at h
      rcases subscriptPath_error hp with rfl | rfl
      · cases h
      · cases h
        rfl

/-- C2 witness: on the empty dict the whole key path is missing and all
four extractors return their empty values. -/
theorem extractors_empty_on_missing_path_witness :
    format_header (PyVal.dict []) = .ok (.dict []) ∧
    format_comment (PyVal.dict []) = .ok (.list []) ∧
    format_metadata (PyVal.dict []) = .ok (.dict []) ∧
    format_data (PyVal.dict []) = .ok [] := by
  have h := extractors_empty_on_missing_path (PyVal.dict [])
  exact ⟨h.1 rfl, h.2.1 rfl, h.2.2.1 rfl, h.2.2.2.1 rfl⟩

/-- C2 counterexample: on the absent (`None`) document produced by a
failed fetch, every extractor raises `TypeError` to its caller instead
of returning its empty value, refuting the claim as stated. -/
theorem extractors_raise_on_none_document :
    format_header PyVal.pynone = .error .typeError ∧
    format_comment PyVal.pynone = .error .typeError ∧
    format_metadata PyVal.pynone = .error .typeError ∧
    format_data PyVal.pynone = .error .typeError :=
  ⟨rfl, rfl, rfl, rfl⟩

/-- C3: `fetch_data` handles a non-200 status and malformed XML by
logging and returning `None`, but when the HTTP GET itself raises a
transport error the `except` handler's log message reads the local
variable `response`, which was never assigned, so the function raises
`UnboundLocalError` instead of returning an empty result. -/
theorem fetch_data_error_modes :
    fetch_data .transportError = .error .unboundLocalError ∧
    (∀ status body, status ≠ 200 → fetch_data (.response status body) = .ok none) ∧
    (∀ v, fetch_data (.response 200 (.parsed v)) = .ok (some v)) ∧
    fetch_data (.response 200 .malformed) = .ok none := by
  refine ⟨rfl, ?_, fun v => rfl, rfl⟩
  intro status body h
  simp [fetch_data, fetchHandler, h]

/-- C3 witness: a 404 response is logged and surfaced as `None`. -/
theorem fetch_data_error_modes_witness :
    fetch_data (.response 404 .malformed) = .ok none :=
  fetch_data_error_modes.2.1 404 .malformed (by decide)

/-- The loop body yields the denoted record exactly on well-formed
entries, and nothing otherwise (no partial record). -/
theorem parseEntry_eq (sv : PyVal) :
    parseEntry sv = if entryWellFormed sv then some (mkRecord sv) else none := by
  unfold parseEntry entryWellFormed mkRecord
  cases entryTimestamp sv <;>
    cases entryField sv "X" <;>
      cases entryField sv "Y" <;>
        cases entryField sv "Z" <;>
          cases entryField sv "X_DOT" <;>
            cases entryField sv "Y_DOT" <;>
              cases entryField sv "Z_DOT" <;>
                simp

/-- C1: for every list of raw state-vector entries, `format_data`
returns exactly one record per well-formed entry (EPOCH and all six
numeric fields parse), in input order, with the timestamp re-rendered by
`parseEpochTimestamp`; entries with a missing key or an unparsable field
contribute nothing to the output and processing continues. -/
theorem format_data_per_wellformed_entry (entries : List PyVal) :
    format_data (stateVectorDoc entries) =
      .ok ((entries.filter (fun sv => entryWellFormed sv)).map mkRecord) ∧
    formatEntries entries =
      (entries.filter (fun sv => entryWellFormed sv)).map mkRecord := by
  have hmain : formatEntries entries =
      (entries.filter (fun sv => entryWellFormed sv)).map mkRecord := by
    induction entries with
    | nil => rfl
    | cons sv rest ih =>
      rw [formatEntries, List.filterMap_cons, parseEntry_eq, List.filter_cons]
      by_cases h : entryWellFormed sv = true
      · rw [if_pos h, if_pos h, List.map_cons]
        exact congrArg _ ih
      · rw [if_neg h, if_neg h]
        exact ih
  refine ⟨?_, hmain⟩
  have hpath : subscriptPath (stateVectorDoc entries)
      ["ndm", "oem", "body", "segment", "data", "stateVector"] = .ok (.list entries) := rfl
  rw [format_data, hpath]
  simp only [pyIter, hmain]

/-- Sanity check of the normalizer on the four-entry test fixture: four
records, in order, with the expected re-rendered timestamps. -/
theorem formatEntries_fixture_timestamps :
    (formatEntries fixtureEntries).map (fun r => r.timestamp) =
      ["1000-01-01 00:00:00.000000", "1000-01-02 00:00:00.000000",
       "1000-01-03 00:00:00.000000", "1000-01-04 00:00:00.000000"] := by
  decide

/-- Shared shape lemma: when the timestamp parses and the transform
succeeds, `cartesian_to_geo` returns the one-element list of one dict
built from the transform result, the corrected longitude, and the
geocoder answer. -/
theorem cartesian_to_geo_ok (env : GeoEnv) (epoch : PyVal) (s : String) (ears : EarthLoc)
    (hts : epoch.subscript "timestamp" = .ok (.str s))
    (hp : parseGeoTimestamp s = some ())
    (hx : ∃ vx, epoch.subscript "x" = .ok vx)
    (hy : ∃ vy, epoch.subscript "y" = .ok vy)
    (hz : ∃ vz, epoch.subscript "z" = .ok vz)
    (htr : env.transform = .ok ears) :
    cartesian_to_geo env epoch = .ok (some (.list [.dict
      [("lat", .num ears.lat), ("lon", .num (lonCorrect ears.lon)),
       ("alt", .num ears.height),
       ("geoloc", .str (match env.geocode ears.lat (lonCorrect ears.lon) with
          | some addr => addr
          | none => "Over Ocean or Unknown"))]])) := by
  obtain ⟨vx, hx⟩ := hx
  obtain ⟨vy, hy⟩ := hy
  obtain ⟨vz, hz⟩ := hz
  simp only [cartesian_to_geo, hts, hp, geoTransformBlock, hx, hy, hz, htr]

/-- C4 (amended): when the timestamp and position fields are valid and
the transform succeeds, `cartesian_to_geo` succeeds with a one-element
list whose single mapping has keys `lat`, `lon` (the corrected
longitude), `alt` and `geoloc`; a geocoder returning no result is
non-fatal and yields the literal `geoloc` value
`"Over Ocean or Unknown"`. -/
theorem cartesian_to_geo_success (env : GeoEnv) (epoch : PyVal) (s : String) (ears : EarthLoc)
    (hts : epoch.subscript "timestamp" = .ok (.str s))
    (hp : parseGeoTimestamp s = some ())
    (hx : ∃ vx, epoch.subscript "x" = .ok vx)
    (hy : ∃ vy, epoch.subscript "y" = .ok vy)
    (hz : ∃ vz, epoch.subscript "z" = .ok vz)
    (htr : env.transform = .ok ears) :
    geoRespField (cartesian_to_geo env epoch) "lat" = some ears.lat ∧
    geoRespField (cartesian_to_geo env epoch) "lon" = some (lonCorrect ears.lon) ∧
    geoRespField (cartesian_to_geo env epoch) "alt" = some ears.height ∧
    (env.geocode ears.lat (lonCorrect ears.lon) = none →
      geoRespStr (cartesian_to_geo env epoch) "geoloc" = some "Over Ocean or Unknown") := by
  rw [cartesian_to_geo_ok env epoch s ears hts hp hx hy hz htr]
  refine ⟨rfl, rfl, rfl, fun hnone => ?_⟩
  rw [hnone]
  rfl

/-- C4 witness: the success shape at a concrete environment and record,
with an empty geocoder result. -/
theorem cartesian_to_geo_success_witness :
    geoRespField (cartesian_to_geo geoEnvNoResult geoEpochFix) "lat" = some 10 ∧
    geoRespStr (cartesian_to_geo geoEnvNoResult geoEpochFix) "geoloc" =
      some "Over Ocean or Unknown" := by
  have h := cartesian_to_geo_success geoEnvNoResult geoEpochFix
    "2024-03-17 12:00:00.000000" ⟨10, 20, 400⟩ rfl rfl ⟨_, rfl⟩ ⟨_, rfl⟩ ⟨_, rfl⟩ rfl
  exact ⟨h.1, h.2.2.2 rfl⟩

/-- C4 counterexample: at a concrete valid record the function returns a
one-element list (not a mapping) whose dict carries the place string
under the key `geoloc`, and has no `place` key at all, refuting the
claimed return shape. -/
theorem cartesian_to_geo_no_place_field :
    cartesian_to_geo geoEnvNoResult geoEpochFix = .ok (some (.list [.dict
      [("lat", .num 10), ("lon", .num 95), ("alt", .num 400),
       ("geoloc", .str "Over Ocean or Unknown")]])) ∧
    (PyVal.dict [("lat", .num 10), ("lon", .num 95), ("alt", .num 400),
       ("geoloc", .str "Over Ocean or Unknown")]).subscript "place" = .error .keyError := by
  constructor
  · rw [cartesian_to_geo_ok geoEnvNoResult geoEpochFix "2024-03-17 12:00:00.000000"
      ⟨10, 20, 400⟩ rfl rfl ⟨_, rfl⟩ ⟨_, rfl⟩ ⟨_, rfl⟩ rfl]
    have hl : lonCorrect 20 = 95 := by norm_num [lonCorrect]
    simp [geoEnvNoResult, hl]
  · rfl

/-- C5: the longitude correction computes `lon + 90 − 15` and subtracts
360 exactly when the corrected value exceeds 180, so a library longitude
in [-180, 180] is mapped back into [-180, 180]; and the successful
response carries the library latitude, the corrected longitude and the
library altitude, so the returned fields respect the claimed ranges
whenever the opaque library output does. -/
theorem lonCorrect_spec :
    (∀ l : ℚ, lonCorrect l =
      (if l + 90 - 15 > 180 then l + 90 - 15 - 360 else l + 90 - 15)) ∧
    (∀ l : ℚ, -180 ≤ l → l ≤ 180 → -180 ≤ lonCorrect l ∧ lonCorrect l ≤ 180) ∧
    (∀ (env : GeoEnv) (epoch : PyVal) (s : String) (ears : EarthLoc),
      epoch.subscript "timestamp" = .ok (.str s) →
      parseGeoTimestamp s = some () →
      (∃ vx, epoch.subscript "x" = .ok vx) →
      (∃ vy, epoch.subscript "y" = .ok vy) →
      (∃ vz, epoch.subscript "z" = .ok vz) →
      env.transform = .ok ears →
      -90 ≤ ears.lat → ears.lat ≤ 90 →
      -180 ≤ ears.lon → ears.lon ≤ 180 →
      0 < ears.height →
      ∃ la lo al,
        geoRespField (cartesian_to_geo env epoch) "lat" = some la ∧
        geoRespField (cartesian_to_geo env epoch) "lon" = some lo ∧
        geoRespField (cartesian_to_geo env epoch) "alt" = some al ∧
        -90 ≤ la ∧ la ≤ 90 ∧ -180 ≤ lo ∧ lo ≤ 180 ∧ 0 < al) := by
  have heq : ∀ l : ℚ, lonCorrect l =
      (if l + 90 - 15 > 180 then l + 90 - 15 - 360 else l + 90 - 15) := by
    intro l
    show (if l + 90 - 15 > 180 then l + 90 - 15 - 180 * 2 else l + 90 - 15) = _
    split <;> ring
  have hrange : ∀ l : ℚ, -180 ≤ l → l ≤ 180 → -180 ≤ lonCorrect l ∧ lonCorrect l ≤ 180 := by
    intro l h1 h2
    rw [heq l]
    split <;> constructor <;> linarith
  refine ⟨heq, hrange, ?_⟩
  intro env epoch s ears hts hp hx hy hz htr hla1 hla2 hlo1 hlo2 hht
  rw [cartesian_to_geo_ok env epoch s ears hts hp hx hy hz htr]
  exact ⟨ears.lat, lonCorrect ears.lon, ears.height, rfl, rfl, rfl,
    hla1, hla2, (hrange ears.lon hlo1 hlo2).1, (hrange ears.lon hlo1 hlo2).2, hht⟩

/-- C5 witness: the range property applied at the concrete environment
(library latitude 10, longitude 20, height 400). -/
theorem lonCorrect_spec_witness :
    ∃ la lo al,
      geoRespField (cartesian_to_geo geoEnvNoResult geoEpochFix) "lat" = some la ∧
      geoRespField (cartesian_to_geo geoEnvNoResult geoEpochFix) "lon" = some lo ∧
      geoRespField (cartesian_to_geo geoEnvNoResult geoEpochFix) "alt" = some al ∧
      -90 ≤ la ∧ la ≤ 90 ∧ -180 ≤ lo ∧ lo ≤ 180 ∧ 0 < al :=
  lonCorrect_spec.2.2 geoEnvNoResult geoEpochFix "2024-03-17 12:00:00.000000" ⟨10, 20, 400⟩
    rfl rfl ⟨_, rfl⟩ ⟨_, rfl⟩ ⟨_, rfl⟩ rfl
    (by norm_num) (by norm_num) (by norm_num) (by norm_num) (by norm_num)

/-- C6: when the transform fails with an exception of a kind not caught
by the `except (KeyError, TypeError)` clause, the bare `except:` branch
only logs, `ears` is never bound, and the following attribute access
raises `UnboundLocalError` — the function raises instead of returning a
typed failure. -/
theorem cartesian_to_geo_bare_except_raises (env : GeoEnv) (epoch : PyVal) (s : String)
    (hts : epoch.subscript "timestamp" = .ok (.str s))
    (hp : parseGeoTimestamp s = some ())
    (hx : ∃ vx, epoch.subscript "x" = .ok vx)
    (hy : ∃ vy, epoch.subscript "y" = .ok vy)
    (hz : ∃ vz, epoch.subscript "z" = .ok vz)
    (htr : env.transform = .error .other) :
    cartesian_to_geo env epoch = .error .unboundLocalError := by
  obtain ⟨vx, hx⟩ := hx
  obtain ⟨vy, hy⟩ := hy
  obtain ⟨vz, hz⟩ := hz
  simp only [cartesian_to_geo, hts, hp, geoTransformBlock, hx, hy, hz, htr]

/-- C6 witness: the uncontrolled failure at a concrete record and a
transform failing with an uncaught exception kind. -/
theorem cartesian_to_geo_bare_except_raises_witness :
    cartesian_to_geo geoEnvOtherFailure geoEpochFix = .error .unboundLocalError :=
  cartesian_to_geo_bare_except_raises geoEnvOtherFailure geoEpochFix
    "2024-03-17 12:00:00.000000" rfl rfl ⟨_, rfl⟩ ⟨_, rfl⟩ ⟨_, rfl⟩ rfl

/-- The speed-accumulation loop computes the sum of the speeds. -/
theorem foldl_add_speed (l : List StateVectorRecord) :
    ∀ a : ℝ, l.foldl (fun acc r => acc + speed r) a = a + (l.map speed).sum := by
  induction l with
  | nil =>
    intro a
    simp
  | cons r rest ih =>
    intro a
    simp only [List.foldl_cons, List.map_cons, List.sum_cons, ih, add_assoc]

/-- C7: on a non-empty record list, `calculate_average_speed` returns
the arithmetic mean over all records of `sqrt(dx² + dy² + dz²)`; on the
empty list the division by zero is caught and `None` is returned; on the
four-vector test fixture the mean lies strictly between 24.3 and 24.31. -/
theorem calculate_average_speed_spec :
    (∀ l : List StateVectorRecord, l ≠ [] →
      calculate_average_speed l = some ((l.map speed).sum / l.length)) ∧
    calculate_average_speed [] = none ∧
    (∃ r, calculate_average_speed fixtureRecords = some r ∧
      (24.3 : ℝ) < r ∧ r < 24.31) := by
  have hmean : ∀ l : List StateVectorRecord, l ≠ [] →
      calculate_average_speed l = some ((l.map speed).sum / l.length) := by
    intro l hl
    unfold calculate_average_speed
    rw [foldl_add_speed l 0, zero_add, if_neg]
    simpa [List.length_eq_zero] using hl
  have e1 : speed ⟨"1000-01-01 00:00:00.000000", 1, -2, 3, 4, -5, 6⟩ = Real.sqrt 77 := by
    rw [speed]
    norm_num
  have e2 : speed ⟨"1000-01-02 00:00:00.000000", -7, 8, -9, 10, -11, 12⟩ = Real.sqrt 365 := by
    rw [speed]
    norm_num
  have e3 : speed ⟨"1000-01-03 00:00:00.000000", 13, -14, 15, 16, -17, 18⟩ = Real.sqrt 869 := by
    rw [speed]
    norm_num
  have e4 : speed ⟨"1000-01-04 00:00:00.000000", -19, 20, -21, 22, -23, 24⟩ = Real.sqrt 1589 := by
    rw [speed]
    norm_num
  refine ⟨hmean, rfl, ?_⟩
  refine ⟨(fixtureRecords.map speed).sum / fixtureRecords.length,
    hmean fixtureRecords (by simp [fixtureRecords]), ?_, ?_⟩ <;>
  · have hsum : (fixtureRecords.map speed).sum =
        Real.sqrt 77 + Real.sqrt 365 + Real.sqrt 869 + Real.sqrt 1589 := by
      simp only [fixtureRecords, List.map_cons, List.map_nil, List.sum_cons, List.sum_nil,
        e1, e2, e3, e4]
      ring
    have hlen : (fixtureRecords.length : ℝ) = 4 := by
      simp [fixtureRecords]
    have l77 : (8.774 : ℝ) < Real.sqrt 77 := (Real.lt_sqrt (by norm_num)).mpr (by norm_num)
    have u77 : Real.sqrt 77 < 8.775 := (Real.sqrt_lt' (by norm_num)).mpr (by norm_num)
    have l365 : (19.104 : ℝ) < Real.sqrt 365 := (Real.lt_sqrt (by norm_num)).mpr (by norm_num)
    have u365 : Real.sqrt 365 < 19.105 := (Real.sqrt_lt' (by norm_num)).mpr (by norm_num)
    have l869 : (29.478 : ℝ) < Real.sqrt 869 := (Real.lt_sqrt (by norm_num)).mpr (by norm_num)
    have u869 : Real.sqrt 869 < 29.479 := (Real.sqrt_lt' (by norm_num)).mpr (by norm_num)
    have l1589 : (39.862 : ℝ) < Real.sqrt 1589 := (Real.lt_sqrt (by norm_num)).mpr (by norm_num)
    have u1589 : Real.sqrt 1589 < 39.863 := (Real.sqrt_lt' (by norm_num)).mpr (by norm_num)
    rw [hsum, hlen]
    linarith

/-- C7 witness: the mean formula applied at the non-empty test fixture. -/
theorem calculate_average_speed_spec_witness :
    calculate_average_speed fixtureRecords =
      some ((fixtureRecords.map speed).sum / fixtureRecords.length) :=
  calculate_average_speed_spec.1 fixtureRecords (by simp [fixtureRecords])

/-- Lookup in a take-prefix, including out-of-range indices. -/
theorem getElem?_take_full {α : Type} (l : List α) (n i : Nat) :
    (l.take n)[i]? = if i < n then l[i]? else none := by
  rcases Nat.lt_or_ge i n with h | h
  · rw [List.getElem?_take_of_lt h, if_pos h]
  · rw [if_neg (Nat.not_lt.mpr h)]
    apply List.getElem?_eq_none
    exact le_trans (List.length_take_le n l) h

/-- Element lookup through a Python slice with natural bounds. -/
theorem pySlice_getElem? {α : Type} (l : List α) (s e i : Nat) :
    (pySlice l (s : Int) (e : Int))[i]? =
      if s + i < e ∧ s + i < l.length then l[s + i]? else none := by
  have hb : ∀ n : Nat, pySliceBound l.length (n : Int) = min n l.length := by
    intro n
    unfold pySliceBound
    rw [if_neg (by omega)]
    all_goals omega
  unfold pySlice
  rw [hb, hb, List.getElem?_drop, getElem?_take_full]
  rcases le_or_lt s l.length with h | h
  · rw [Nat.min_eq_left h]
    by_cases hc : s + i < e ∧ s + i < l.length
    · rw [if_pos (by omega), if_pos hc]
    · rw [if_neg (by omega), if_neg hc]
  · rw [Nat.min_eq_right (le_of_lt h)]
    rw [if_neg (by omega), if_neg (by omega)]

/-- C8: in the `/epochs` route, `offset` defaults to 0 and `limit` to
the rest of the list (the defaults return the whole list, and a bare
offset drops exactly `offset` records), and slicing is consistent:
element `i` of the `(limit, offset)` response is element `i + offset`
of the `(limit + offset, 0)` response — unconditionally, both sides
being absent together out of range. -/
theorem get_epochs_slice_spec :
    (∀ l : List StateVectorRecord, get_epochs l none 0 = l) ∧
    (∀ (l : List StateVectorRecord) (offset : Nat),
      get_epochs l none (offset : Int) = l.drop offset) ∧
    (∀ (l : List StateVectorRecord) (limit offset i : Nat),
      (get_epochs l (some (limit : Int)) (offset : Int))[i]? =
        (get_epochs l (some ((limit : Int) + (offset : Int))) 0)[i + offset]?) := by
  have hb : ∀ (l : List StateVectorRecord) (n : Nat),
      pySliceBound l.length (n : Int) = min n l.length := by
    intro l n
    unfold pySliceBound
    rw [if_neg (by omega)]
    all_goals omega
  have hnone : ∀ (l : List StateVectorRecord) (offset : Nat),
      get_epochs l none (offset : Int) = l.drop offset := by
    intro l offset
    show pySlice l (offset : Int) (l.length : Int) = l.drop offset
    unfold pySlice
    rw [hb, hb, Nat.min_self, List.take_length]
    rcases le_or_lt offset l.length with h | h
    · rw [Nat.min_eq_left h]
    · rw [Nat.min_eq_right (le_of_lt h), List.drop_length,
        List.drop_eq_nil_of_le (le_of_lt h)]
  refine ⟨?_, hnone, ?_⟩
  · intro l
    have h := hnone l 0
    rwa [List.drop_zero, Nat.cast_zero] at h
  · intro l limit offset i
    have hcast1 : ((offset : Int) + (limit : Int)) = (((offset + limit : Nat)) : Int) := by
      push_cast
      ring
    have hcast2 : ((limit : Int) + (offset : Int)) = (((limit + offset : Nat)) : Int) := by
      push_cast
      ring
    simp only [get_epochs]
    rw [zero_add, hcast1, hcast2, ← Nat.cast_zero (R := Int),
      pySlice_getElem?, pySlice_getElem?]
    rw [show 0 + (i + offset) = offset + i from by omega]
    by_cases hc : offset + i < offset + limit ∧ offset + i < l.length
    · rw [if_pos hc, if_pos (by omega)]
    · rw [if_neg hc, if_neg (by omega)]

/-- A successful linear `find?` returns the first satisfying element. -/
theorem find?_first {α : Type} (p : α → Bool) (l : List α) (a : α)
    (h : l.find? p = some a) :
    ∃ i : Nat, l[i]? = some a ∧ p a = true ∧
      ∀ j : Nat, j < i → ∀ b : α, l[j]? = some b → p b = false := by
  induction l with
  | nil => simp at h
  | cons x xs ih =>
    by_cases hp : p x = true
    · rw [List.find?_cons_of_pos _ hp] at h
      cases h
      exact ⟨0, by simp, hp, fun j hj => absurd hj (Nat.not_lt_zero j)⟩
    · have hp' : p x = false := by
        revert hp
        cases p x <;> simp
      rw [List.find?_cons_of_neg _ (by simp [hp'])] at h
      obtain ⟨i, hi, hpa, hmin⟩ := ih h
      refine ⟨i + 1, by simpa using hi, hpa, ?_⟩
      intro j hj b hb
      cases j with
      | zero =>
        rw [List.getElem?_cons_zero] at hb
        cases hb
        exact hp'
      | succ j' =>
        exact hmin j' (by omega) b (by simpa using hb)

/-- A first satisfying element (nothing earlier satisfies the
predicate) is exactly what linear `find?` returns. -/
theorem find?_of_first {α : Type} (p : α → Bool) (l : List α) (i : Nat) (a : α)
    (hi : l[i]? = some a) (hpa : p a = true)
    (hmin : ∀ j : Nat, j < i → ∀ b : α, l[j]? = some b → p b = false) :
    l.find? p = some a := by
  induction l generalizing i with
  | nil => simp at hi
  | cons x xs ih =>
    cases i with
    | zero =>
      rw [List.getElem?_cons_zero] at hi
      cases hi
      exact List.find?_cons_of_pos _ hpa
    | succ i' =>
      rw [List.getElem?_cons_succ] at hi
      have hx : p x = false := hmin 0 (Nat.succ_pos i') x (by simp)
      rw [List.find?_cons_of_neg _ (by simp [hx])]
      exact ih i' hi (fun j hj b hb => hmin (j + 1) (by omega) b (by simpa using hb))

/-- Replacement of a single-character pattern acts characterwise. -/
theorem pyReplaceAux_single (o : Char) (new : List Char) (cs : List Char) :
    pyReplaceAux o [] new cs = cs.flatMap (fun c => if c = o then new else [c]) := by
  induction cs with
  | nil => simp [pyReplaceAux]
  | cons c rest ih =>
    rw [pyReplaceAux]
    by_cases h : c = o
    · subst h
      simp [List.isPrefixOf, ih]
    · simp [List.isPrefixOf, Ne.symm h, h, ih]

/-- Composition of two characterwise replacements. -/
theorem flatMap_flatMap_char (cs : List Char) (f g : Char → List Char) :
    (cs.flatMap f).flatMap g = cs.flatMap (fun c => (f c).flatMap g) := by
  induction cs with
  | nil => rfl
  | cons c rest ih => simp [ih]

/-- Encoding a timestamp for the URL path maps each character through
`emChar`: a space becomes two underscores, a colon one underscore. -/
theorem encode_toList (s : String) :
    (encodeEpochPath s).toList = s.toList.flatMap emChar := by
  show pyReplaceAux ':' [] ['_']
      (pyReplaceAux ' ' [] ['_', '_'] s.toList) = s.toList.flatMap emChar
  rw [pyReplaceAux_single, pyReplaceAux_single, flatMap_flatMap_char]
  have hfg : (fun c => ((if c = ' ' then ['_', '_'] else [c]).flatMap
      (fun c => if c = ':' then ['_'] else [c]))) = emChar := by
    funext c
    by_cases h1 : c = ' '
    · subst h1
      rfl
    · by_cases h2 : c = ':'
      · subst h2
        rfl
      · simp [emChar, h1, h2]
  rw [hfg]

/-- First decoding pass: replacing `__` with a space in the encoded
string restores exactly the spaces, provided the original string has no
underscore and no colon directly followed by a colon or space. -/
theorem decode_pass1 (cs : List Char) (hU : ∀ x ∈ cs, x ≠ '_')
    (hC : colonOk cs = true) :
    pyReplaceAux '_' ['_'] [' '] (cs.flatMap emChar) = cs.flatMap mdChar := by
  induction cs with
  | nil => simp [pyReplaceAux]
  | cons c rest ih =>
    have hUr : ∀ x ∈ rest, x ≠ '_' := fun x hx => hU x (List.mem_cons_of_mem _ hx)
    rw [colonOk, Bool.and_eq_true] at hC
    obtain ⟨hC1, hC2⟩ := hC
    have ih' := ih hUr hC2
    by_cases h1 : c = ' '
    · subst h1
      show pyReplaceAux '_' ['_'] [' '] ('_' :: '_' :: rest.flatMap emChar) =
        (' ' :: rest).flatMap mdChar
      rw [pyReplaceAux]
      rw [if_pos (by simp [List.isPrefixOf])]
      show ' ' :: pyReplaceAux '_' ['_'] [' '] (rest.flatMap emChar) = _
      rw [ih']
      simp [mdChar]
    · by_cases h2 : c = ':'
      · subst h2
        rw [if_pos rfl] at hC1
        cases rest with
        | nil =>
          show pyReplaceAux '_' ['_'] [' '] ['_'] = (':' :: ([] : List Char)).flatMap mdChar
          rw [pyReplaceAux]
          rw [if_neg (by simp [List.isPrefixOf])]
          simp [pyReplaceAux, mdChar]
        | cons c2 r2 =>
          simp only [headOkAfterColon, Bool.and_eq_true, decide_eq_true_eq] at hC1
          obtain ⟨hc2a, hc2b⟩ := hC1
          have hc2c : c2 ≠ '_' := hUr c2 (by simp)
          have hhead : (c2 :: r2).flatMap emChar = c2 :: r2.flatMap emChar := by
            simp [emChar, hc2a, hc2b]
          show pyReplaceAux '_' ['_'] [' ']
            ('_' :: (c2 :: r2).flatMap emChar) = (':' :: c2 :: r2).flatMap mdChar
          rw [hhead, pyReplaceAux]
          rw [if_neg (by simp [List.isPrefixOf, Ne.symm hc2c])]
          rw [show (pyReplaceAux '_' ['_'] [' '] (c2 :: r2.flatMap emChar)) =
              (pyReplaceAux '_' ['_'] [' '] ((c2 :: r2).flatMap emChar)) from by rw [hhead]]
          rw [ih']
          simp [mdChar]
      · have hc : c ≠ '_' := hU c (by simp)
        have hhead : (c :: rest).flatMap emChar = c :: rest.flatMap emChar := by
          simp [emChar, h1, h2]
        rw [hhead, pyReplaceAux]
        rw [if_neg (by simp [List.isPrefixOf, Ne.symm hc])]
        rw [show (pyReplaceAux '_' ['_'] [' '] (rest.flatMap emChar)) =
            rest.flatMap mdChar from ih']
        simp [mdChar, h2]

/-- Second decoding pass: replacing `_` with a colon restores the
colons, provided the original string has no underscore of its own. -/
theorem decode_pass2 (cs : List Char) (hU : ∀ x ∈ cs, x ≠ '_') :
    pyReplaceAux '_' [] [':'] (cs.flatMap mdChar) = cs := by
  induction cs with
  | nil => simp [pyReplaceAux]
  | cons c rest ih =>
    have hUr : ∀ x ∈ rest, x ≠ '_' := fun x hx => hU x (List.mem_cons_of_mem _ hx)
    have ih' := ih hUr
    by_cases h1 : c = ':'
    · subst h1
      show pyReplaceAux '_' [] [':'] ('_' :: rest.flatMap mdChar) = ':' :: rest
      rw [pyReplaceAux]
      rw [if_pos (by simp [List.isPrefixOf])]
      show ':' :: pyReplaceAux '_' [] [':'] ((rest.flatMap mdChar).drop 0) = ':' :: rest
      rw [List.drop_zero, ih']
    · have hc : c ≠ '_' := hU c (by simp)
      have hhead : (c :: rest).flatMap mdChar = c :: rest.flatMap mdChar := by
        simp [mdChar, h1]
      rw [hhead, pyReplaceAux]
      rw [if_neg (by simp [List.isPrefixOf, Ne.symm hc])]
      rw [show (pyReplaceAux '_' [] [':'] (rest.flatMap mdChar)) = rest from ih']

/-- A string matching an underscore-free template has no underscore. -/
theorem matchesFormat_no_underscore (f : List Char) :
    ∀ cs : List Char, matchesFormat f cs = true → (∀ x ∈ f, x ≠ '_') →
      ∀ x ∈ cs, x ≠ '_' := by
  induction f with
  | nil =>
    intro cs h hf
    cases cs with
    | nil => simp
    | cons c r => simp [matchesFormat] at h
  | cons fc fr ih =>
    intro cs h hf
    cases cs with
    | nil => simp [matchesFormat] at h
    | cons c r =>
      rw [show matchesFormat (fc :: fr) (c :: r) =
        ((if fc = 'D' then c.isDigit else decide (c = fc)) && matchesFormat fr r)
        from rfl, Bool.and_eq_true] at h
      obtain ⟨h1, h2⟩ := h
      intro x hx
      rcases List.mem_cons.mp hx with rfl | hx
      · by_cases hD : fc = 'D'
        · rw [if_pos hD] at h1
          intro heq
          subst heq
          exact absurd h1 (by decide)
        · rw [if_neg hD] at h1
          have hcf : x = fc := of_decide_eq_true h1
          subst hcf
          exact hf x (by simp)
      · exact ih r h2 (fun y hy => hf y (List.mem_cons_of_mem _ hy)) x hx

/-- A string matching a template whose colons are all followed by digit
slots has no colon followed by a colon or a space. -/
theorem matchesFormat_colonOk (f : List Char) :
    ∀ cs : List Char, matchesFormat f cs = true → fmtColonOk f = true →
      colonOk cs = true := by
  induction f with
  | nil =>
    intro cs h hf
    cases cs with
    | nil => rfl
    | cons c r => simp [matchesFormat] at h
  | cons fc fr ih =>
    intro cs h hf
    cases cs with
    | nil => simp [matchesFormat] at h
    | cons c r =>
      rw [show matchesFormat (fc :: fr) (c :: r) =
        ((if fc = 'D' then c.isDigit else decide (c = fc)) && matchesFormat fr r)
        from rfl, Bool.and_eq_true] at h
      obtain ⟨h1, h2⟩ := h
      rw [show fmtColonOk (fc :: fr) =
        ((if fc = ':' then fmtHeadDigit fr else true) && fmtColonOk fr) from rfl,
        Bool.and_eq_true] at hf
      obtain ⟨hf1, hf2⟩ := hf
      rw [colonOk, Bool.and_eq_true]
      refine ⟨?_, ih r h2 hf2⟩
      by_cases hc : c = ':'
      · rw [if_pos hc]
        subst hc
        have hfc : fc = ':' := by
          by_cases hD : fc = 'D'
          · rw [if_pos hD] at h1
            exact absurd h1 (by decide)
          · rw [if_neg hD] at h1
            exact (of_decide_eq_true h1).symm
        subst hfc
        rw [if_pos rfl] at hf1
        cases r with
        | nil => rfl
        | cons c2 r2 =>
          cases fr with
          | nil => simp [matchesFormat] at h2
          | cons f2 fr2 =>
            rw [show matchesFormat (f2 :: fr2) (c2 :: r2) =
              ((if f2 = 'D' then c2.isDigit else decide (c2 = f2)) && matchesFormat fr2 r2)
              from rfl, Bool.and_eq_true] at h2
            obtain ⟨h21, h22⟩ := h2
            have hf2d : f2 = 'D' := of_decide_eq_true (by simpa [fmtHeadDigit] using hf1)
            rw [if_pos hf2d] at h21
            have hd1 : c2 ≠ ':' := by
              intro heq
              subst heq
              exact absurd h21 (by decide)
            have hd2 : c2 ≠ ' ' := by
              intro heq
              subst heq
              exact absurd h21 (by decide)
            simp [headOkAfterColon, hd1, hd2]
      · rw [if_neg hc]

/-- Round-trip core: for any string with no underscore and no colon
directly followed by a colon or a space, the URL-path encoding followed
by the route's decoding is the identity. -/
theorem decode_encode_of_safe (s : String) (hU : ∀ x ∈ s.toList, x ≠ '_')
    (hC : colonOk s.toList = true) :
    decodeEpochPath (encodeEpochPath s) = s := by
  have h1 : pyReplace (encodeEpochPath s) "__" " " = String.mk (s.toList.flatMap mdChar) := by
    show String.mk (pyReplaceAux '_' ['_'] [' '] (encodeEpochPath s).toList) = _
    rw [encode_toList, decode_pass1 s.toList hU hC]
  show pyReplace (pyReplace (encodeEpochPath s) "__" " ") "_" ":" = s
  rw [h1]
  show String.mk (pyReplaceAux '_' [] [':'] (s.toList.flatMap mdChar)) = s
  rw [decode_pass2 s.toList hU]
  rfl

/-- C10: for every string in the canonical
`YYYY-MM-DD hh:mm:ss.ffffff` shape (the timestamps `format_data`
renders, which contain no underscore), the URL-path encoding (space to
`__`, colon to `_`) followed by the route's decoding (`__` to space,
then `_` to colon) is the identity. -/
theorem epoch_path_roundtrip (s : String) (h : isCanonicalTimestamp s = true) :
    decodeEpochPath (encodeEpochPath s) = s :=
  decode_encode_of_safe s
    (matchesFormat_no_underscore canonicalTemplate s.toList h (by decide))
    (matchesFormat_colonOk canonicalTemplate s.toList h (by decide))

/-- C10 witness: the round trip at the first fixture timestamp. -/
theorem epoch_path_roundtrip_witness :
    decodeEpochPath (encodeEpochPath "1000-01-01 00:00:00.000000") =
      "1000-01-01 00:00:00.000000" :=
  epoch_path_roundtrip "1000-01-01 00:00:00.000000" (by decide)

/-- Concrete evaluation of the route's path decoding at the encoded
first fixture timestamp. -/
theorem decode_fixture_path :
    decodeEpochPath "1000-01-01__00_00_00.000000" = "1000-01-01 00:00:00.000000" := by
  have h1 : encodeEpochPath "1000-01-01 00:00:00.000000" = "1000-01-01__00_00_00.000000" := by
    apply String.ext
    rw [show (encodeEpochPath "1000-01-01 00:00:00.000000").data =
        (encodeEpochPath "1000-01-01 00:00:00.000000").toList from rfl, encode_toList]
    decide
  rw [← h1]
  exact decode_encode_of_safe "1000-01-01 00:00:00.000000" (by decide) (by decide)

/-- C9: the `/epochs/<epoch>` route substitutes `__` with a space and
`_` with a colon in the path segment and scans the records in order:
whenever position `i` holds a record whose canonical timestamp equals
the decoded value and every earlier position does not, the route
returns exactly that record; conversely, any record it returns is such
a first match; and when no record matches, the route answers the body
`{error: "Epoch not found"}` with HTTP 404. -/
theorem get_epoch_spec (l : List StateVectorRecord) (epoch : String) :
    (∀ (i : Nat) (r : StateVectorRecord),
      l[i]? = some r → r.timestamp = decodeEpochPath epoch →
      (∀ j : Nat, j < i → ∀ r' : StateVectorRecord,
        l[j]? = some r' → r'.timestamp ≠ decodeEpochPath epoch) →
      get_epoch l epoch = .record r) ∧
    (∀ r, get_epoch l epoch = .record r →
      ∃ i : Nat, l[i]? = some r ∧ r.timestamp = decodeEpochPath epoch ∧
        ∀ j : Nat, j < i → ∀ r' : StateVectorRecord,
          l[j]? = some r' → r'.timestamp ≠ decodeEpochPath epoch) ∧
    ((∀ r ∈ l, r.timestamp ≠ decodeEpochPath epoch) →
      get_epoch l epoch = .notFound [("error", "Epoch not found")] 404) := by
  refine ⟨?_, ?_, ?_⟩
  · intro i r hi hts hmin
    unfold get_epoch
    rw [find?_of_first (fun x => x.timestamp == decodeEpochPath epoch) l i r hi
      (by simp [hts]) (fun j hj b hb => by simpa using hmin j hj b hb)]
  · intro r hr
    unfold get_epoch at hr
    cases hf : l.find? (fun x => x.timestamp == decodeEpochPath epoch) with
    | none =>
      rw [hf] at hr
      cases hr
    | some r' =>
      rw [hf] at hr
      cases hr
      obtain ⟨i, hi, hpa, hmin⟩ := find?_first _ l r hf
      refine ⟨i, hi, by simpa using hpa, ?_⟩
      intro j hj r' hj'
      have := hmin j hj r' hj'
      simpa using this
  · intro hnone
    unfold get_epoch
    rw [List.find?_eq_none.mpr]
    intro x hx
    simpa using hnone x hx

/-- C9 witness: on a singleton list whose record's timestamp equals the
decoded path segment the route returns that record, and on the empty
list it returns the 404 error body. -/
theorem get_epoch_spec_witness :
    get_epoch [⟨"1000-01-01 00:00:00.000000", 1, -2, 3, 4, -5, 6⟩]
        "1000-01-01__00_00_00.000000" =
      .record ⟨"1000-01-01 00:00:00.000000", 1, -2, 3, 4, -5, 6⟩ ∧
    get_epoch [] "1000-01-01__00_00_00.000000" =
      .notFound [("error", "Epoch not found")] 404 := by
  constructor
  · exact (get_epoch_spec _ _).1 0 _ (by simp) (by rw [decode_fixture_path])
      (fun j hj => absurd hj (Nat.not_lt_zero j))
  · exact (get_epoch_spec _ _).2.2 (by simp)

end IssTracker
